import Mathlib

/-!
Verification of the Customer-Vetting data-gathering pipeline.

Shallow embedding of the repository's core:
  * `src/pipeline.py` — `run_vetting_pipeline`, `format_results_for_report`
  * `src/app.py` — the upfront field validation in `main`
  * `src/utils/creditorwatch_scraper.py` — `_creditorwatch_worker`,
    `run_creditorwatch_in_subprocess`
  * `src/utils/abn_lookup.py` — `lookup_company`

Python values that flow through the pipeline (adapter payloads, JSON
written to the hand-off file) are modelled by `JsonVal`; Python
exceptions are modelled by `Except String`; a Python dict with string
keys is modelled by an insertion-ordered association list, which is how
CPython dicts behave.  The nondeterministic completion order of the
thread-pool futures is modelled by an explicit `order : List String`
parameter: `concurrent.futures.as_completed` yields every submitted
future exactly once, so the orders realisable at runtime are exactly
the permutations of the task-key list.
-/

namespace Vetting

/-- Model of a Python/JSON value (payloads, hand-off file contents). -/
inductive JsonVal where
  | null : JsonVal
  | bool (b : Bool) : JsonVal
  | num (n : Int) : JsonVal
  | str (s : String) : JsonVal
  | arr (items : List JsonVal) : JsonVal
  | obj (fields : List (String × JsonVal)) : JsonVal
deriving Repr

/-- Python truthiness of a `JsonVal` (used by `if data.get("gpt_cleaned_text"):`). -/
def JsonVal.truthy : JsonVal → Bool
  | .null => false
  | .bool b => b
  | .num n => n != 0
  | .str s => s != ""
  | .arr [] => false
  | .arr (_ :: _) => true
  | .obj [] => false
  | .obj (_ :: _) => true

mutual
/-- Deterministic model of Python's `json.dumps` on a `JsonVal`
(a pure function of the value; the exact layout of the serialisation is
irrelevant to the claims, only its determinism matters). -/
def JsonVal.dumps : JsonVal → String
  | .null => "null"
  | .bool b => if b then "true" else "false"
  | .num n => toString n
  | .str s => "\"" ++ s ++ "\""
  | .arr items => "[" ++ dumpsArr items ++ "]"
  | .obj fields => "\x7b" ++ dumpsObj fields ++ "\x7d"

/-- Comma-separated serialisation of a JSON array's items. -/
def dumpsArr : List JsonVal → String
  | [] => ""
  | [v] => JsonVal.dumps v
  | v :: rest => JsonVal.dumps v ++ ", " ++ dumpsArr rest

/-- Comma-separated serialisation of a JSON object's fields. -/
def dumpsObj : List (String × JsonVal) → String
  | [] => ""
  | [(k, v)] => "\"" ++ k ++ "\": " ++ JsonVal.dumps v
  | (k, v) :: rest => "\"" ++ k ++ "\": " ++ JsonVal.dumps v ++ ", " ++ dumpsObj rest
end

/-- One entry of the `data_sources` dict built by `run_vetting_pipeline`
(`src/pipeline.py` lines 40-44): `{"status": ..., "data": ..., "error": ...}`. -/
structure SourceEntry where
  status : String
  data : Option JsonVal
  error : Option String
deriving Repr

/-- The initial per-key entry `{"status": "pending", "data": None, "error": None}`. -/
def initEntry : SourceEntry := { status := "pending", data := none, error := none }

/-- The `data_sources` mapping: a CPython dict from source key to entry,
modelled as an insertion-ordered association list. -/
abbrev DataSources := List (String × SourceEntry)

/-- Python dict indexing `ds[k]` (first — and only — binding of `k`). -/
def lookupKey (ds : DataSources) (k : String) : Option SourceEntry :=
  match ds with
  | [] => none
  | (k0, e) :: rest => if k0 = k then some e else lookupKey rest k

/-- The `inputs` sub-dict of the pipeline result (`src/pipeline.py` lines 34-38). -/
structure Inputs where
  linkedin_url : String
  website_domain : String
  abn : Option String
deriving Repr

/-- The dict returned by `run_vetting_pipeline` (`src/pipeline.py` lines 32-46). -/
structure PipelineResult where
  company_name : String
  inputs : Inputs
  data_sources : DataSources
deriving Repr

/-- The five configured source keys, in the dict-insertion order of
`src/pipeline.py` lines 40-44 (which is also the task-list order of lines 49-55). -/
def sourceKeys : List String :=
  ["linkedin_details", "linkedin_posts", "website_traffic", "abn_lookup", "web_search"]

/-- Behaviour of the five source adapters called by the pipeline.  Each
either returns a payload (`Except.ok`) or raises an exception whose
`str(e)` is the given message (`Except.error`), matching the functions
imported in `src/pipeline.py` lines 8-10. -/
structure Adapters where
  get_linkedin_company_details : String → Except String JsonVal
  get_linkedin_company_posts : String → Nat → Except String JsonVal
  get_website_traffic : String → Except String JsonVal
  lookup_company : String → Option String → Except String JsonVal
  search_company : String → Except String JsonVal

/-- Outcome of the task submitted for a given key, with the argument
tuples of `src/pipeline.py` lines 49-55. -/
def taskOutcome (A : Adapters) (company_name linkedin_url website_domain : String)
    (abn : Option String) : String → Except String JsonVal
  | "linkedin_details" => A.get_linkedin_company_details linkedin_url
  | "linkedin_posts" => A.get_linkedin_company_posts linkedin_url 10
  | "website_traffic" => A.get_website_traffic website_domain
  | "abn_lookup" => A.lookup_company company_name abn
  | "web_search" => A.search_company company_name
  | _ => Except.error "no such task"

/-- The per-key recording step of the fan-in loop (`src/pipeline.py`
lines 66-76): on success set status/data, on exception set status/error. -/
def setOutcome (e : SourceEntry) : Except String JsonVal → SourceEntry
  | .ok d => { e with status := "success", data := some d }
  | .error m => { e with status := "error", error := some m }

/-- Record one completed future's outcome under its own key: the
in-place dict update `results["data_sources"][key][...] = ...`. -/
def recordOutcome (ds : DataSources) (k : String) (r : Except String JsonVal) : DataSources :=
  ds.map (fun p => if p.1 = k then (p.1, setOutcome p.2 r) else p)

/-- `run_vetting_pipeline` (`src/pipeline.py` lines 13-85).  `order` is
the completion order in which `as_completed` yields the five futures;
every runtime execution corresponds to some permutation of `sourceKeys`. -/
def run_vetting_pipeline (A : Adapters) (order : List String)
    (company_name linkedin_url website_domain : String) (abn : Option String) :
    PipelineResult :=
  let init : DataSources := sourceKeys.map (fun k => (k, initEntry))
  let out := taskOutcome A company_name linkedin_url website_domain abn
  let ds := order.foldl (fun acc k => recordOutcome acc k (out k)) init
  { company_name := company_name
    inputs := { linkedin_url := linkedin_url, website_domain := website_domain, abn := abn }
    data_sources := ds }

/-- `success_count` (`src/pipeline.py` line 79): number of entries with
status `"success"`. -/
def success_count (pr : PipelineResult) : Nat :=
  (pr.data_sources.filter (fun p => p.2.status == "success")).length

/-- `total_count` (`src/pipeline.py` line 80): number of entries whose
status is not `"skipped"`. -/
def total_count (pr : PipelineResult) : Nat :=
  (pr.data_sources.filter (fun p => p.2.status != "skipped")).length

/-! ### Formatter (`format_results_for_report`, `src/pipeline.py` lines 88-161) -/

/-- Python's `str()` of an `Optional[str]`: `None` prints as `"None"`
(as interpolated by the f-strings building the unavailable markers). -/
def optStr : Option String → String
  | none => "None"
  | some s => s

/-- `json.dumps` applied to an entry's `data` field (`None` serialises as `null`). -/
def dumpsData : Option JsonVal → String
  | none => JsonVal.dumps .null
  | some v => JsonVal.dumps v

/-- Dict indexing that raises `KeyError` on a missing key, as
`pipeline_results["data_sources"][key]` does. -/
def dictIndex (ds : DataSources) (k : String) : Except String SourceEntry :=
  match lookupKey ds k with
  | some e => Except.ok e
  | none => Except.error ("KeyError: " ++ k)

/-- Python's `data.get(field)`: `None` when missing; raises
`AttributeError` when `data` is not a dict. -/
def pyDictGet (v : JsonVal) (field : String) : Except String JsonVal :=
  match v with
  | .obj fields =>
      match fields.lookup field with
      | some x => Except.ok x
      | none => Except.ok .null
  | _ => Except.error "AttributeError: get"

/-- A value appended to `output_parts` must be a `str` for the final
`"\n".join` to succeed; anything else raises `TypeError` there. -/
def pyAsStr (v : JsonVal) : Except String String :=
  match v with
  | .str s => Except.ok s
  | _ => Except.error "TypeError: sequence item is not str"

/-- The `data` field as the Python value it holds (`None` is `null`). -/
def dataVal : Option JsonVal → JsonVal
  | some v => v
  | none => JsonVal.null

/-- The dict comprehension `{k: v for k, v in data.items() if k != "full_text"}`
of `src/pipeline.py` line 154 (on a non-dict the comprehension is
unreachable because `data.get` already raised). -/
def dropFullText : JsonVal → JsonVal
  | .obj fields => JsonVal.obj (fields.filter (fun p => p.1 != "full_text"))
  | other => other

/-- The second part a non-CreditorWatch section contributes: the
serialised payload on success, the `[Data unavailable: ...]` marker
otherwise (`src/pipeline.py` lines 107-142). -/
def sectionBody (e : SourceEntry) : String :=
  if e.status == "success" then dumpsData e.data
  else "[Data unavailable: " ++ optStr e.error ++ "]"

/-- The two parts a non-CreditorWatch section contributes to
`output_parts`: the header line, then its body (`src/pipeline.py`
lines 105-142). -/
def sectionParts (header : String) (e : SourceEntry) : List String :=
  [header, sectionBody e]

/-- The parts the CreditorWatch section contributes to `output_parts`
(`src/pipeline.py` lines 144-159), including the `gpt_cleaned_text`
fallback logic and the `skipped` branch. -/
def creditorwatchParts (e : SourceEntry) : Except String (List String) :=
  if e.status == "success" then
    match pyDictGet (dataVal e.data) "gpt_cleaned_text" with
    | .error err => Except.error err
    | .ok g =>
      if g.truthy then
        match pyAsStr g with
        | .error err => Except.error err
        | .ok s => Except.ok ["\n### CREDITORWATCH (FINANCIAL RISK DATA) ###", s]
      else
        Except.ok ["\n### CREDITORWATCH (FINANCIAL RISK DATA) ###",
                   JsonVal.dumps (dropFullText (dataVal e.data))]
  else if e.status == "skipped" then
    Except.ok ["\n### CREDITORWATCH (FINANCIAL RISK DATA) ###",
               "[Skipped: " ++ optStr e.error ++ "]"]
  else
    Except.ok ["\n### CREDITORWATCH (FINANCIAL RISK DATA) ###",
               "[Data unavailable: " ++ optStr e.error ++ "]"]

/-- The full `output_parts` list built by `format_results_for_report`,
in the exact append order of the source; a lookup of a missing key or a
malformed CreditorWatch payload propagates as the Python exception. -/
def formatParts (pr : PipelineResult) : Except String (List String) := do
  let linkedin_details ← dictIndex pr.data_sources "linkedin_details"
  let linkedin_posts ← dictIndex pr.data_sources "linkedin_posts"
  let website_traffic ← dictIndex pr.data_sources "website_traffic"
  let abn_lookup ← dictIndex pr.data_sources "abn_lookup"
  let web_search ← dictIndex pr.data_sources "web_search"
  let creditorwatch ← dictIndex pr.data_sources "creditorwatch"
  let cwParts ← creditorwatchParts creditorwatch
  Except.ok
    (["COMPANY: " ++ pr.company_name, String.mk (List.replicate 60 '=')] ++
     sectionParts "\n### LINKEDIN COMPANY DETAILS ###" linkedin_details ++
     sectionParts "\n### LINKEDIN RECENT POSTS ###" linkedin_posts ++
     sectionParts "\n### WEBSITE TRAFFIC (SIMILARWEB) ###" website_traffic ++
     sectionParts "\n### ABN LOOKUP (AUSTRALIAN BUSINESS REGISTER) ###" abn_lookup ++
     sectionParts "\n### WEB SEARCH RESULTS ###" web_search ++
     cwParts)

/-- `format_results_for_report` (`src/pipeline.py` lines 88-161):
`"\n".join(output_parts)`. -/
def format_results_for_report (pr : PipelineResult) : Except String String :=
  (formatParts pr).map (fun parts => String.intercalate "\n" parts)

/-! ### Upfront validation in the app (`src/app.py` lines 228-250) -/

/-- The `missing_fields` list built on button click (`src/app.py`
lines 230-236); `not x or not x.strip()` on a `str` is
`x == "" or x.strip() == ""`. -/
def missing_fields (company_name linkedin_url website_domain : String) : List String :=
  (if company_name == "" || company_name.trim == "" then ["Company Name"] else []) ++
  (if linkedin_url == "" || linkedin_url.trim == "" then ["LinkedIn Company URL"] else []) ++
  (if website_domain == "" || website_domain.trim == "" then ["Website Domain"] else [])

/-- What the app's generate-report handler produces: either the upfront
validation error (and an early return, before the pipeline is ever
called), or the pipeline's result. -/
inductive AppOutcome where
  | validationError (message : String) : AppOutcome
  | report (pr : PipelineResult) : AppOutcome
deriving Repr

/-- The generate-report branch of `main` in `src/app.py`
(lines 228-250): validate the three required fields first; only when
none is missing call `run_vetting_pipeline` on the stripped inputs,
with `abn.strip() if abn else None`. -/
def app_generate (A : Adapters) (order : List String)
    (company_name linkedin_url website_domain abn : String) : AppOutcome :=
  let missing := missing_fields company_name linkedin_url website_domain
  if missing.isEmpty then
    AppOutcome.report (run_vetting_pipeline A order
      company_name.trim linkedin_url.trim website_domain.trim
      (if abn != "" then some abn.trim else none))
  else
    AppOutcome.validationError
      ("⚠️ Please fill in the required fields: " ++ String.intercalate ", " missing)

/-! ### Isolated execution boundary
(`src/utils/creditorwatch_scraper.py` lines 31-91) -/

/-- The JSON message `_creditorwatch_worker` writes to the hand-off
file: `{"success": true, "data": d}` or `{"success": false, "error": m}`. -/
inductive HandoffMsg where
  | succ (data : JsonVal) : HandoffMsg
  | fail (errMsg : String) : HandoffMsg
deriving Repr

/-- `_creditorwatch_worker` (`src/utils/creditorwatch_scraper.py`
lines 31-44): run the fetch, write a success message with the data, or
catch the exception and write a failure message with `str(e)`. -/
def creditorwatch_worker (fetch : Except String JsonVal) : HandoffMsg :=
  match fetch with
  | .ok d => HandoffMsg.succ d
  | .error e => HandoffMsg.fail e

/-- How one invocation's worker process behaved by the time
`process.join(timeout)` returns: it either finished within the budget
(leaving the hand-off file either written with a message, or
missing/empty, modelled by `none`), or it is still alive (timed out). -/
inductive WorkerRun where
  | finished (fileContent : Option HandoffMsg) : WorkerRun
  | timedOut : WorkerRun
deriving Repr

/-- Observable outcome of `run_creditorwatch_in_subprocess`: the value
returned or the exception raised, plus whether the hand-off temp file
still exists once the call has returned. -/
structure SubprocResult where
  outcome : Except String JsonVal
  tempFileExistsAfter : Bool
deriving Repr

/-- The `try` body of `run_creditorwatch_in_subprocess`
(`src/utils/creditorwatch_scraper.py` lines 66-86): timeout check,
missing/empty-file check, then dispatch on the message's `success` flag. -/
def subprocBody (timeout : Nat) (run : WorkerRun) : Except String JsonVal :=
  match run with
  | .timedOut =>
      Except.error ("CreditorWatch scraper timed out after " ++ toString timeout ++ " seconds")
  | .finished none =>
      Except.error "CreditorWatch scraper process ended without returning data"
  | .finished (some (.succ d)) => Except.ok d
  | .finished (some (.fail m)) => Except.error m

/-- `run_creditorwatch_in_subprocess` (`src/utils/creditorwatch_scraper.py`
lines 47-91).  `tempfile.mkstemp` creates the hand-off file before the
body runs, so it exists on every path when the `finally` block checks
`os.path.exists`; the `finally` block then unlinks it. -/
def run_creditorwatch_in_subprocess (timeout : Nat) (run : WorkerRun) : SubprocResult :=
  let body := subprocBody timeout run
  let fileExistsBeforeFinally : Bool := true
  let fileExistsAfter : Bool :=
    if fileExistsBeforeFinally then false else fileExistsBeforeFinally
  { outcome := body, tempFileExistsAfter := fileExistsAfter }

/-! ### ABN lookup (`src/utils/abn_lookup.py` lines 189-225) -/

/-- One row of the search-results table built by `search_abn_by_name`
(`src/utils/abn_lookup.py` lines 62-68). -/
structure SearchResult where
  abn : String
  status : String
  name : String
  entityType : String
  location : String
deriving Repr

/-- Python truthiness of an `Optional[str]` argument: `None` and `""`
are falsy. -/
def truthyStr : Option String → Bool
  | none => false
  | some s => s != ""

/-- `lookup_company` (`src/utils/abn_lookup.py` lines 189-225),
parametrised by the behaviour of the two network helpers it calls.  If
both arguments are falsy it raises `ValueError`; a truthy `abn` short-
circuits to `get_abn_details`; otherwise it searches by name, returns
`None` for no results, and fetches details of the first result. -/
def lookup_company (company_name abn : Option String)
    (search_abn_by_name : String → Except String (List SearchResult))
    (get_abn_details : String → Except String JsonVal) :
    Except String (Option JsonVal) :=
  if !truthyStr company_name && !truthyStr abn then
    Except.error "Either company_name or abn must be provided"
  else if truthyStr abn then
    (get_abn_details (abn.getD "")).map (fun d => some d)
  else do
    let search_results ← search_abn_by_name (company_name.getD "")
    match search_results with
    | [] => Except.ok none
    | first :: _ => (get_abn_details first.abn).map (fun d => some d)

/-! ### Auxiliary definitions used by the theorems below -/

/-- Whether a task's outcome is a success (the condition the fan-in
loop maps to status `"success"`). -/
def succeeded : Except String JsonVal → Bool
  | .ok _ => true
  | .error _ => false

/-- Extending a pipeline result's mapping with the `"creditorwatch"`
entry the formatter expects (a caller-side augmentation; the pipeline
itself never creates this entry). -/
def withCreditorwatch (pr : PipelineResult) (e : SourceEntry) : PipelineResult :=
  { pr with data_sources := pr.data_sources ++ [("creditorwatch", e)] }

/-- Stub adapters that all raise `Exception("connection refused")`. -/
def refusedAdapters : Adapters :=
  { get_linkedin_company_details := fun _ => Except.error "connection refused"
    get_linkedin_company_posts := fun _ _ => Except.error "connection refused"
    get_website_traffic := fun _ => Except.error "connection refused"
    lookup_company := fun _ _ => Except.error "connection refused"
    search_company := fun _ => Except.error "connection refused" }

/-- Stub adapters that all succeed, echoing their arguments in the
payload so an entry's data records which adapter call produced it. -/
def probeAdapters : Adapters :=
  { get_linkedin_company_details := fun url => Except.ok (JsonVal.str ("details:" ++ url))
    get_linkedin_company_posts := fun url n =>
      Except.ok (JsonVal.str ("posts:" ++ url ++ ":" ++ toString n))
    get_website_traffic := fun d => Except.ok (JsonVal.str ("traffic:" ++ d))
    lookup_company := fun name _ => Except.ok (JsonVal.str ("abn:" ++ name))
    search_company := fun name => Except.ok (JsonVal.str ("search:" ++ name)) }

/-- Stub adapters with a mixed outcome: the two LinkedIn sources fail,
the other three succeed. -/
def mixedAdapters : Adapters :=
  { get_linkedin_company_details := fun _ => Except.error "connection refused"
    get_linkedin_company_posts := fun _ _ => Except.error "connection refused"
    get_website_traffic := fun d => Except.ok (JsonVal.str ("traffic:" ++ d))
    lookup_company := fun name _ => Except.ok (JsonVal.str ("abn:" ++ name))
    search_company := fun name => Except.ok (JsonVal.str ("search:" ++ name)) }

/-- Stub for `search_abn_by_name` returning an empty results table. -/
def stubSearchEmpty : String → Except String (List SearchResult) :=
  fun _ => Except.ok []

/-- Stub for `search_abn_by_name` that raises. -/
def stubSearchRaise : String → Except String (List SearchResult) :=
  fun n => Except.error ("Error searching ABN Lookup: " ++ n)

/-- Stub for `get_abn_details` echoing the ABN it was asked for. -/
def stubDetails : String → Except String JsonVal :=
  fun a => Except.ok (JsonVal.obj [("abn", JsonVal.str a)])

/-- The CreditorWatch entry used in concrete formatter runs. -/
def cwErrorEntry : SourceEntry :=
  { status := "error", data := none, error := some "cw down" }

/-! ## Helper lemmas about the fan-in fold and the keyed mapping -/

/-- Fan-in characterisation: folding the per-key recording step over a
duplicate-free completion order updates exactly the keys that complete,
each with its own task's outcome — writes are key-partitioned. -/
theorem foldRecord_eq (out : String → Except String JsonVal) :
    ∀ (order : List String), order.Nodup → ∀ ds : DataSources,
      order.foldl (fun acc k => recordOutcome acc k (out k)) ds
        = ds.map (fun p => if p.1 ∈ order then (p.1, setOutcome p.2 (out p.1)) else p) := by
  intro order
  induction order with
  | nil => intro _ ds; simp
  | cons k rest ih =>
    intro h ds
    have hk : k ∉ rest := (List.nodup_cons.mp h).1
    have hrest : rest.Nodup := (List.nodup_cons.mp h).2
    rw [List.foldl_cons, ih hrest, recordOutcome, List.map_map]
    apply List.map_congr_left
    intro p _
    by_cases hpk : p.1 = k
    · simp only [Function.comp_apply, hpk, if_pos rfl]
      have hrk : k ∉ rest := hk
      simp [hrk, List.mem_cons]
    · simp only [Function.comp_apply, if_neg hpk]
      simp [List.mem_cons, hpk]

/-- The mapping returned by the pipeline, for any realisable completion
order: one entry per configured key, in declaration order, each carrying
its own task's settled outcome. -/
theorem run_data_sources (A : Adapters) (order : List String)
    (h : order.Perm sourceKeys) (cn lu wd : String) (abn : Option String) :
    (run_vetting_pipeline A order cn lu wd abn).data_sources
      = sourceKeys.map (fun k => (k, setOutcome initEntry (taskOutcome A cn lu wd abn k))) := by
  have hnd : order.Nodup := (List.Perm.nodup_iff h).mpr (by decide)
  simp only [run_vetting_pipeline]
  rw [foldRecord_eq _ order hnd, List.map_map]
  apply List.map_congr_left
  intro k hkmem
  have hmem : k ∈ order := (List.Perm.mem_iff h).mpr hkmem
  simp [hmem]

/-- The pipeline's whole result does not depend on the completion order
of the futures: any two realisable orders give equal results. -/
theorem run_perm_eq (A : Adapters) (o1 o2 : List String)
    (h1 : o1.Perm sourceKeys) (h2 : o2.Perm sourceKeys)
    (cn lu wd : String) (abn : Option String) :
    run_vetting_pipeline A o1 cn lu wd abn = run_vetting_pipeline A o2 cn lu wd abn := by
  have e1 := run_data_sources A o1 h1 cn lu wd abn
  have e2 := run_data_sources A o2 h2 cn lu wd abn
  cases hr1 : run_vetting_pipeline A o1 cn lu wd abn with
  | mk c1 i1 d1 =>
    cases hr2 : run_vetting_pipeline A o2 cn lu wd abn with
    | mk c2 i2 d2 =>
      rw [hr1] at e1
      rw [hr2] at e2
      have hc : c1 = c2 := by
        have : (run_vetting_pipeline A o1 cn lu wd abn).company_name
            = (run_vetting_pipeline A o2 cn lu wd abn).company_name := rfl
        rw [hr1, hr2] at this
        exact this
      have hi : i1 = i2 := by
        have : (run_vetting_pipeline A o1 cn lu wd abn).inputs
            = (run_vetting_pipeline A o2 cn lu wd abn).inputs := rfl
        rw [hr1, hr2] at this
        exact this
      simp only [PipelineResult.mk.injEq]
      exact ⟨hc, hi, e1.trans e2.symm⟩

/-- Looking up a key present in a keyed map built over a key list finds
that key's value (the first binding wins, as in a Python dict). -/
theorem lookupKey_map_mem (f : String → SourceEntry) :
    ∀ (l : List String) (key : String), key ∈ l →
      lookupKey (l.map (fun k => (k, f k))) key = some (f key) := by
  intro l
  induction l with
  | nil => intro key hk; cases hk
  | cons k0 rest ih =>
    intro key hk
    by_cases heq : k0 = key
    · subst heq
      simp [lookupKey]
    · have : key ∈ rest := by
        rcases List.mem_cons.mp hk with h | h
        · exact absurd h.symm heq
        · exact h
      simp [lookupKey, heq, ih key this]

/-- Looking up a key absent from a keyed map fails. -/
theorem lookupKey_map_not_mem (f : String → SourceEntry) :
    ∀ (l : List String) (key : String), key ∉ l →
      lookupKey (l.map (fun k => (k, f k))) key = none := by
  intro l
  induction l with
  | nil => intro key _; rfl
  | cons k0 rest ih =>
    intro key hk
    have h1 : k0 ≠ key := fun h => hk (h ▸ List.mem_cons_self k0 rest)
    have h2 : key ∉ rest := fun h => hk (List.mem_cons_of_mem _ h)
    simp [lookupKey, h1, ih key h2]

/-- Filtering a keyed map on the entry and measuring its length agrees
with filtering the key list on the entry-generating function. -/
theorem length_filter_keyed (f : String → SourceEntry) (p : SourceEntry → Bool) :
    ∀ l : List String,
      ((l.map (fun k => (k, f k))).filter (fun x => p x.2)).length
        = (l.filter (fun k => p (f k))).length := by
  intro l
  induction l with
  | nil => rfl
  | cons k rest ih =>
    by_cases hp : p (f k)
    · simp [List.filter_cons, hp, ih]
    · simp [List.filter_cons, hp, ih]

/-- A Boolean filter and its complement partition a list's length. -/
theorem length_filter_add_not (p : String → Bool) :
    ∀ l : List String,
      (l.filter p).length + (l.filter (fun a => !p a)).length = l.length := by
  intro l
  induction l with
  | nil => rfl
  | cons k rest ih =>
    by_cases hp : p k
    · simp [List.filter_cons, hp, ← ih]
      omega
    · simp [List.filter_cons, hp, ← ih]
      omega

/-! ## Helper lemmas about the formatter -/

/-- Whatever the CreditorWatch entry holds, when its section renders at
all it renders as exactly its fixed header followed by one body part. -/
theorem creditorwatchParts_shape (e : SourceEntry) (l : List String)
    (h : creditorwatchParts e = Except.ok l) :
    ∃ b, l = ["\n### CREDITORWATCH (FINANCIAL RISK DATA) ###", b] := by
  unfold creditorwatchParts at h
  split at h
  · split at h
    · cases h
    · split at h
      · split at h
        · cases h
        · exact ⟨_, (Except.ok.inj h).symm⟩
      · exact ⟨_, (Except.ok.inj h).symm⟩
  · split at h
    · exact ⟨_, (Except.ok.inj h).symm⟩
    · exact ⟨_, (Except.ok.inj h).symm⟩

/-- Value of `formatParts` on a keyed mapping of exactly the five
pipeline keys plus a `"creditorwatch"` entry: the company header lines
followed by the six sections in their fixed declaration order. -/
theorem formatParts_keyed (g : String → SourceEntry) (cw : SourceEntry)
    (cwp : List String) (hcw : creditorwatchParts cw = Except.ok cwp)
    (cn : String) (inp : Inputs) :
    formatParts
        { company_name := cn, inputs := inp,
          data_sources := (sourceKeys.map (fun k => (k, g k))) ++ [("creditorwatch", cw)] }
      = Except.ok
          (["COMPANY: " ++ cn, String.mk (List.replicate 60 '=')] ++
           sectionParts "\n### LINKEDIN COMPANY DETAILS ###" (g "linkedin_details") ++
           sectionParts "\n### LINKEDIN RECENT POSTS ###" (g "linkedin_posts") ++
           sectionParts "\n### WEBSITE TRAFFIC (SIMILARWEB) ###" (g "website_traffic") ++
           sectionParts "\n### ABN LOOKUP (AUSTRALIAN BUSINESS REGISTER) ###" (g "abn_lookup") ++
           sectionParts "\n### WEB SEARCH RESULTS ###" (g "web_search") ++
           cwp) := by
  calc
    formatParts
        { company_name := cn, inputs := inp,
          data_sources := (sourceKeys.map (fun k => (k, g k))) ++ [("creditorwatch", cw)] }
      = (creditorwatchParts cw).bind (fun cwParts =>
          Except.ok
            (["COMPANY: " ++ cn, String.mk (List.replicate 60 '=')] ++
             sectionParts "\n### LINKEDIN COMPANY DETAILS ###" (g "linkedin_details") ++
             sectionParts "\n### LINKEDIN RECENT POSTS ###" (g "linkedin_posts") ++
             sectionParts "\n### WEBSITE TRAFFIC (SIMILARWEB) ###" (g "website_traffic") ++
             sectionParts "\n### ABN LOOKUP (AUSTRALIAN BUSINESS REGISTER) ###" (g "abn_lookup") ++
             sectionParts "\n### WEB SEARCH RESULTS ###" (g "web_search") ++
             cwParts)) := rfl
    _ = _ := by rw [hcw]; rfl

/-! ## Claim theorems -/

/-- C1: for every call of `run_vetting_pipeline` (any adapter
behaviours, any realisable completion order of the futures), the
returned `data_sources` mapping contains exactly one entry for each of
the five configured keys and no other key, and at the moment it returns
no entry has status `"pending"`: every entry's status is `"success"` or
`"error"` (in particular never `"skipped"`). -/
theorem C1_pipeline_complete_no_pending (A : Adapters) (order : List String)
    (h : order.Perm sourceKeys) (cn lu wd : String) (abn : Option String) :
    (run_vetting_pipeline A order cn lu wd abn).data_sources.map Prod.fst = sourceKeys ∧
    ∀ p ∈ (run_vetting_pipeline A order cn lu wd abn).data_sources,
      p.2.status = "success" ∨ p.2.status = "error" := by
  constructor
  · rw [run_data_sources A order h]
    rfl
  · intro p hp
    rw [run_data_sources A order h] at hp
    simp only [List.mem_map] at hp
    obtain ⟨k, hk, rfl⟩ := hp
    cases hout : taskOutcome A cn lu wd abn k with
    | ok d => exact Or.inl (by simp [setOutcome, hout])
    | error m => exact Or.inr (by simp [setOutcome, hout])

/-- Closed instance of C1: concrete failing adapters, reversed
completion order. -/
theorem C1_pipeline_complete_no_pending_witness :
    List.Perm sourceKeys.reverse sourceKeys ∧
    ((run_vetting_pipeline refusedAdapters sourceKeys.reverse "Acme" "u" "d" none).data_sources.map
        Prod.fst = sourceKeys ∧
     ∀ p ∈ (run_vetting_pipeline refusedAdapters sourceKeys.reverse "Acme" "u" "d" none).data_sources,
       p.2.status = "success" ∨ p.2.status = "error") :=
  ⟨List.reverse_perm sourceKeys,
   C1_pipeline_complete_no_pending refusedAdapters sourceKeys.reverse
     (List.reverse_perm sourceKeys) "Acme" "u" "d" none⟩

/-- C2: for every assignment of behaviours to the five adapters, the
pipeline never raises — its embedding is a total function — and an
adapter whose call raises with message `m` is recorded under its own key
as status `"error"` with error `m`, while the call still returns a
complete result covering all five keys. -/
theorem C2_failures_recorded_not_raised (A : Adapters) (order : List String)
    (h : order.Perm sourceKeys) (cn lu wd : String) (abn : Option String)
    (key m : String) (hk : key ∈ sourceKeys)
    (he : taskOutcome A cn lu wd abn key = Except.error m) :
    lookupKey (run_vetting_pipeline A order cn lu wd abn).data_sources key
      = some { status := "error", data := none, error := some m } ∧
    (run_vetting_pipeline A order cn lu wd abn).data_sources.map Prod.fst = sourceKeys := by
  constructor
  · rw [run_data_sources A order h, lookupKey_map_mem _ _ _ hk, he]
    rfl
  · rw [run_data_sources A order h]
    rfl

/-- Closed instance of C2: all five adapters raise
`"connection refused"`; the `web_search` entry records it. -/
theorem C2_failures_recorded_not_raised_witness :
    (List.Perm sourceKeys sourceKeys ∧ "web_search" ∈ sourceKeys ∧
     taskOutcome refusedAdapters "Acme" "u" "d" none "web_search"
       = Except.error "connection refused") ∧
    (lookupKey (run_vetting_pipeline refusedAdapters sourceKeys "Acme" "u" "d" none).data_sources
        "web_search"
      = some { status := "error", data := none, error := some "connection refused" } ∧
     (run_vetting_pipeline refusedAdapters sourceKeys "Acme" "u" "d" none).data_sources.map
        Prod.fst = sourceKeys) :=
  ⟨⟨List.Perm.refl sourceKeys, by decide, rfl⟩,
   C2_failures_recorded_not_raised refusedAdapters sourceKeys (List.Perm.refl sourceKeys)
     "Acme" "u" "d" none "web_search" "connection refused" (by decide) rfl⟩

/-- C9: with deterministic adapters, the pipeline's result is
structurally identical across calls regardless of the nondeterministic
completion order of the concurrent tasks — same statuses, payloads and
error messages for every key. -/
theorem C9_pipeline_deterministic (A : Adapters) (o1 o2 : List String)
    (h1 : o1.Perm sourceKeys) (h2 : o2.Perm sourceKeys)
    (cn lu wd : String) (abn : Option String) :
    run_vetting_pipeline A o1 cn lu wd abn = run_vetting_pipeline A o2 cn lu wd abn :=
  run_perm_eq A o1 o2 h1 h2 cn lu wd abn

/-- Closed instance of C9: mixed adapters, forward versus reversed
completion order give the same result. -/
theorem C9_pipeline_deterministic_witness :
    (List.Perm sourceKeys.reverse sourceKeys ∧ List.Perm sourceKeys sourceKeys) ∧
    run_vetting_pipeline mixedAdapters sourceKeys.reverse "Acme" "u" "d" (some "12")
      = run_vetting_pipeline mixedAdapters sourceKeys "Acme" "u" "d" (some "12") :=
  ⟨⟨List.reverse_perm sourceKeys, List.Perm.refl sourceKeys⟩,
   C9_pipeline_deterministic mixedAdapters sourceKeys.reverse sourceKeys
     (List.reverse_perm sourceKeys) (List.Perm.refl sourceKeys) "Acme" "u" "d" (some "12")⟩

/-- C5: whichever subset S of the five sources fails (adapters raise)
while the complement succeeds, `success_count` equals five minus the
size of S — the size of the complement — and `total_count` equals the
number of configured keys whose status is not `"skipped"`, which is
always 5; both are pure functions of the per-key statuses. -/
theorem C5_success_count_complement (A : Adapters) (order : List String)
    (h : order.Perm sourceKeys) (cn lu wd : String) (abn : Option String) :
    success_count (run_vetting_pipeline A order cn lu wd abn)
      = sourceKeys.length
        - (sourceKeys.filter (fun k => !succeeded (taskOutcome A cn lu wd abn k))).length ∧
    success_count (run_vetting_pipeline A order cn lu wd abn)
      = (sourceKeys.filter (fun k => succeeded (taskOutcome A cn lu wd abn k))).length ∧
    total_count (run_vetting_pipeline A order cn lu wd abn) = 5 := by
  have hsucc : success_count (run_vetting_pipeline A order cn lu wd abn)
      = (sourceKeys.filter (fun k => succeeded (taskOutcome A cn lu wd abn k))).length := by
    unfold success_count
    rw [run_data_sources A order h,
        length_filter_keyed (fun k => setOutcome initEntry (taskOutcome A cn lu wd abn k))
          (fun e => e.status == "success") sourceKeys]
    congr 1
    apply List.filter_congr
    intro k _
    cases taskOutcome A cn lu wd abn k with
    | ok d => rfl
    | error m => rfl
  have htot : total_count (run_vetting_pipeline A order cn lu wd abn) = 5 := by
    unfold total_count
    rw [run_data_sources A order h,
        length_filter_keyed (fun k => setOutcome initEntry (taskOutcome A cn lu wd abn k))
          (fun e => e.status != "skipped") sourceKeys]
    have : (sourceKeys.filter
        (fun k => (setOutcome initEntry (taskOutcome A cn lu wd abn k)).status != "skipped"))
        = sourceKeys.filter (fun _ => true) := by
      apply List.filter_congr
      intro k _
      cases taskOutcome A cn lu wd abn k with
      | ok d => rfl
      | error m => rfl
    rw [this]
    rfl
  refine ⟨?_, hsucc, htot⟩
  have hpart := length_filter_add_not
    (fun k => succeeded (taskOutcome A cn lu wd abn k)) sourceKeys
  omega

/-- Closed instance of C5: two sources fail, three succeed, so
`success_count` is 5 - 2 = 3 and `total_count` is 5. -/
theorem C5_success_count_complement_witness :
    List.Perm sourceKeys sourceKeys ∧
    (success_count (run_vetting_pipeline mixedAdapters sourceKeys "Acme" "u" "d" none)
       = sourceKeys.length
         - (sourceKeys.filter
             (fun k => !succeeded (taskOutcome mixedAdapters "Acme" "u" "d" none k))).length ∧
     success_count (run_vetting_pipeline mixedAdapters sourceKeys "Acme" "u" "d" none)
       = (sourceKeys.filter
           (fun k => succeeded (taskOutcome mixedAdapters "Acme" "u" "d" none k))).length ∧
     total_count (run_vetting_pipeline mixedAdapters sourceKeys "Acme" "u" "d" none) = 5) ∧
    success_count (run_vetting_pipeline mixedAdapters sourceKeys "Acme" "u" "d" none) = 3 ∧
    (sourceKeys.filter
        (fun k => !succeeded (taskOutcome mixedAdapters "Acme" "u" "d" none k))).length = 2 :=
  ⟨List.Perm.refl sourceKeys,
   C5_success_count_complement mixedAdapters sourceKeys (List.Perm.refl sourceKeys)
     "Acme" "u" "d" none,
   rfl, rfl⟩

/-- C3 (code bug): on the pipeline's own output — here the example run
in which every source fails with `"connection refused"` —
`format_results_for_report` does raise: it indexes the `"creditorwatch"`
key, which `run_vetting_pipeline` never creates, so the call dies with a
`KeyError` instead of returning a marker-bearing report, even though
every per-source failure was captured in the mapping. -/
theorem C3_formatter_keyerror_on_pipeline_result :
    format_results_for_report
        (run_vetting_pipeline refusedAdapters sourceKeys "Acme Pty Ltd"
          "https://www.linkedin.com/company/acme" "acme.com.au" none)
      = Except.error "KeyError: creditorwatch" ∧
    ∀ p ∈ (run_vetting_pipeline refusedAdapters sourceKeys "Acme Pty Ltd"
          "https://www.linkedin.com/company/acme" "acme.com.au" none).data_sources,
      p.2.status = "error" ∧ p.2.error = some "connection refused" := by
  constructor
  · rfl
  · decide

/-- C4 counterexample: `run_vetting_pipeline` called with an empty
`company_name` does not fail with a validation error and does invoke
all five source adapters — every entry comes back `"success"` carrying
the payload its adapter built (the ABN-lookup and web-search payloads
echo the empty company name they were called with). -/
theorem C4_counterexample_pipeline_does_not_validate :
    (run_vetting_pipeline probeAdapters sourceKeys "" "https://li" "dom.com" none).data_sources
      = [("linkedin_details",
          { status := "success", data := some (JsonVal.str "details:https://li"), error := none }),
         ("linkedin_posts",
          { status := "success", data := some (JsonVal.str "posts:https://li:10"), error := none }),
         ("website_traffic",
          { status := "success", data := some (JsonVal.str "traffic:dom.com"), error := none }),
         ("abn_lookup",
          { status := "success", data := some (JsonVal.str "abn:"), error := none }),
         ("web_search",
          { status := "success", data := some (JsonVal.str "search:"), error := none })] := rfl

/-- C4 amended: the upfront empty-company-identifier validation is
performed by the app (`src/app.py` lines 228-240), not by
`run_vetting_pipeline`: on a blank company name the generate-report
handler returns the single validation error naming `"Company Name"`
before any dispatch, and its outcome is independent of the adapters and
of any completion order — zero source adapters are invoked. -/
theorem C4_amended_app_validates_upfront (A A2 : Adapters) (o o2 : List String)
    (cn lu wd abn : String) (h : (cn == "" || cn.trim == "") = true) :
    app_generate A o cn lu wd abn
      = AppOutcome.validationError
          ("⚠️ Please fill in the required fields: "
            ++ String.intercalate ", " (missing_fields cn lu wd)) ∧
    "Company Name" ∈ missing_fields cn lu wd ∧
    app_generate A o cn lu wd abn = app_generate A2 o2 cn lu wd abn := by
  have hcond : (cn == "" || cn.trim == "") = true := h
  have hmf : missing_fields cn lu wd
      = "Company Name" ::
          ((if lu == "" || lu.trim == "" then ["LinkedIn Company URL"] else []) ++
           (if wd == "" || wd.trim == "" then ["Website Domain"] else [])) := by
    unfold missing_fields
    rw [hcond]
    simp
  have key : ∀ (B : Adapters) (ord : List String),
      app_generate B ord cn lu wd abn
        = AppOutcome.validationError
            ("⚠️ Please fill in the required fields: "
              ++ String.intercalate ", " (missing_fields cn lu wd)) := by
    intro B ord
    unfold app_generate
    rw [hmf]
    simp
  refine ⟨key A o, ?_, (key A o).trans (key A2 o2).symm⟩
  rw [hmf]
  exact List.mem_cons_self _ _

/-- Closed instance of the amended C4: blank company name, two different
adapter sets and completion orders, same synchronous validation error. -/
theorem C4_amended_app_validates_upfront_witness :
    (("" : String) == "" || ("" : String).trim == "") = true ∧
    (app_generate probeAdapters sourceKeys "" "https://li" "dom.com" ""
       = AppOutcome.validationError
           ("⚠️ Please fill in the required fields: "
             ++ String.intercalate ", " (missing_fields "" "https://li" "dom.com")) ∧
     "Company Name" ∈ missing_fields "" "https://li" "dom.com" ∧
     app_generate probeAdapters sourceKeys "" "https://li" "dom.com" ""
       = app_generate refusedAdapters [] "" "https://li" "dom.com" "") :=
  ⟨by decide,
   C4_amended_app_validates_upfront probeAdapters refusedAdapters sourceKeys []
     "" "https://li" "dom.com" "" (by decide)⟩

/-- C6: when the worker does not signal completion within `timeout`
seconds, `run_creditorwatch_in_subprocess` terminates it and fails with
exactly `"CreditorWatch scraper timed out after <timeout> seconds"`;
and on every path — success, worker error, missing hand-off, or
timeout — the single-use hand-off temp file has been deleted by the
time the call returns. -/
theorem C6_timeout_and_handoff_cleanup (timeout : Nat) (run : WorkerRun) :
    (run_creditorwatch_in_subprocess timeout WorkerRun.timedOut).outcome
      = Except.error
          ("CreditorWatch scraper timed out after " ++ toString timeout ++ " seconds") ∧
    (run_creditorwatch_in_subprocess timeout run).tempFileExistsAfter = false :=
  ⟨rfl, rfl⟩

/-- C7: the hand-off protocol is total over worker outcomes: a
`{"success": true, "data": d}` message yields exactly `d`; a
`{"success": false, "error": m}` message raises with message `m`; a
missing or empty hand-off file raises `"CreditorWatch scraper process
ended without returning data"`; and the worker writes exactly the
success message on a successful fetch and the error message with
`str(e)` on a raised fetch. -/
theorem C7_handoff_protocol_total (timeout : Nat) (d : JsonVal) (m : String) :
    (run_creditorwatch_in_subprocess timeout
        (WorkerRun.finished (some (HandoffMsg.succ d)))).outcome = Except.ok d ∧
    (run_creditorwatch_in_subprocess timeout
        (WorkerRun.finished (some (HandoffMsg.fail m)))).outcome = Except.error m ∧
    (run_creditorwatch_in_subprocess timeout (WorkerRun.finished none)).outcome
      = Except.error "CreditorWatch scraper process ended without returning data" ∧
    creditorwatch_worker (Except.ok d) = HandoffMsg.succ d ∧
    creditorwatch_worker (Except.error m) = HandoffMsg.fail m :=
  ⟨rfl, rfl, rfl, rfl, rfl⟩

/-- C8: the formatter's output is a pure function of the result
mapping's contents — identical whatever completion order produced the
mapping — and its parts always come in the one fixed declaration order:
company header, LinkedIn details, LinkedIn posts, website traffic, ABN
lookup, web search, CreditorWatch. -/
theorem C8_formatter_fixed_order (A : Adapters) (o1 o2 : List String)
    (h1 : o1.Perm sourceKeys) (h2 : o2.Perm sourceKeys)
    (cn lu wd : String) (abn : Option String)
    (cw : SourceEntry) (cwp : List String)
    (hcw : creditorwatchParts cw = Except.ok cwp) :
    format_results_for_report (withCreditorwatch (run_vetting_pipeline A o1 cn lu wd abn) cw)
      = format_results_for_report
          (withCreditorwatch (run_vetting_pipeline A o2 cn lu wd abn) cw) ∧
    ∃ b1 b2 b3 b4 b5 bcw,
      formatParts (withCreditorwatch (run_vetting_pipeline A o1 cn lu wd abn) cw)
        = Except.ok
            ["COMPANY: " ++ cn, String.mk (List.replicate 60 '='),
             "\n### LINKEDIN COMPANY DETAILS ###", b1,
             "\n### LINKEDIN RECENT POSTS ###", b2,
             "\n### WEBSITE TRAFFIC (SIMILARWEB) ###", b3,
             "\n### ABN LOOKUP (AUSTRALIAN BUSINESS REGISTER) ###", b4,
             "\n### WEB SEARCH RESULTS ###", b5,
             "\n### CREDITORWATCH (FINANCIAL RISK DATA) ###", bcw] := by
  constructor
  · rw [run_perm_eq A o1 o2 h1 h2 cn lu wd abn]
  · obtain ⟨bcw, rfl⟩ := creditorwatchParts_shape cw cwp hcw
    have hw : withCreditorwatch (run_vetting_pipeline A o1 cn lu wd abn) cw
        = { company_name := cn,
            inputs := { linkedin_url := lu, website_domain := wd, abn := abn },
            data_sources :=
              (sourceKeys.map
                (fun k => (k, setOutcome initEntry (taskOutcome A cn lu wd abn k)))) ++
              [("creditorwatch", cw)] } := by
      unfold withCreditorwatch
      rw [run_data_sources A o1 h1 cn lu wd abn]
      rfl
    refine ⟨sectionBody (setOutcome initEntry (taskOutcome A cn lu wd abn "linkedin_details")),
      sectionBody (setOutcome initEntry (taskOutcome A cn lu wd abn "linkedin_posts")),
      sectionBody (setOutcome initEntry (taskOutcome A cn lu wd abn "website_traffic")),
      sectionBody (setOutcome initEntry (taskOutcome A cn lu wd abn "abn_lookup")),
      sectionBody (setOutcome initEntry (taskOutcome A cn lu wd abn "web_search")),
      bcw, ?_⟩
    rw [hw, formatParts_keyed
      (fun k => setOutcome initEntry (taskOutcome A cn lu wd abn k)) cw _ hcw cn
      { linkedin_url := lu, website_domain := wd, abn := abn }]
    rfl

/-- Closed instance of C8: mixed adapters, forward and reversed
completion orders, an errored CreditorWatch entry. -/
theorem C8_formatter_fixed_order_witness :
    (List.Perm sourceKeys sourceKeys ∧ List.Perm sourceKeys.reverse sourceKeys ∧
     creditorwatchParts cwErrorEntry
       = Except.ok ["\n### CREDITORWATCH (FINANCIAL RISK DATA) ###",
                    "[Data unavailable: cw down]"]) ∧
    (format_results_for_report
        (withCreditorwatch (run_vetting_pipeline mixedAdapters sourceKeys "Acme" "u" "d" none)
          cwErrorEntry)
      = format_results_for_report
          (withCreditorwatch
            (run_vetting_pipeline mixedAdapters sourceKeys.reverse "Acme" "u" "d" none)
            cwErrorEntry) ∧
     ∃ b1 b2 b3 b4 b5 bcw,
      formatParts
          (withCreditorwatch (run_vetting_pipeline mixedAdapters sourceKeys "Acme" "u" "d" none)
            cwErrorEntry)
        = Except.ok
            ["COMPANY: " ++ "Acme", String.mk (List.replicate 60 '='),
             "\n### LINKEDIN COMPANY DETAILS ###", b1,
             "\n### LINKEDIN RECENT POSTS ###", b2,
             "\n### WEBSITE TRAFFIC (SIMILARWEB) ###", b3,
             "\n### ABN LOOKUP (AUSTRALIAN BUSINESS REGISTER) ###", b4,
             "\n### WEB SEARCH RESULTS ###", b5,
             "\n### CREDITORWATCH (FINANCIAL RISK DATA) ###", bcw]) :=
  ⟨⟨List.Perm.refl sourceKeys, List.reverse_perm sourceKeys, rfl⟩,
   C8_formatter_fixed_order mixedAdapters sourceKeys sourceKeys.reverse
     (List.Perm.refl sourceKeys) (List.reverse_perm sourceKeys) "Acme" "u" "d" none
     cwErrorEntry _ rfl⟩

/-- C10: in the ABN-lookup adapter a provided non-empty ABN takes
strict priority — `lookup_company` returns exactly `get_abn_details`'s
answer, with `company_name` (even `None`) and the search helper having
no influence — and when both arguments are absent it raises `ValueError`
instead of performing any lookup. -/
theorem C10_abn_priority (cn : Option String) (a : String) (ha : a ≠ "")
    (search search2 : String → Except String (List SearchResult))
    (gad : String → Except String JsonVal) :
    lookup_company cn (some a) search gad = (gad a).map (fun d => some d) ∧
    lookup_company cn (some a) search gad = lookup_company none (some a) search2 gad ∧
    lookup_company none none search gad
      = Except.error "Either company_name or abn must be provided" := by
  have hta : truthyStr (some a) = true := by
    simp [truthyStr, ha]
  refine ⟨?_, ?_, rfl⟩
  · unfold lookup_company
    rw [hta]
    simp
  · unfold lookup_company
    rw [hta]
    simp

/-- Closed instance of C10: a concrete ABN, two different search
helpers, an echoing details helper. -/
theorem C10_abn_priority_witness :
    ("12 345 678 901" : String) ≠ "" ∧
    (lookup_company (some "Acme Pty Ltd") (some "12 345 678 901") stubSearchEmpty stubDetails
       = (stubDetails "12 345 678 901").map (fun d => some d) ∧
     lookup_company (some "Acme Pty Ltd") (some "12 345 678 901") stubSearchEmpty stubDetails
       = lookup_company none (some "12 345 678 901") stubSearchRaise stubDetails ∧
     lookup_company none none stubSearchEmpty stubDetails
       = Except.error "Either company_name or abn must be provided") :=
  ⟨by decide,
   C10_abn_priority (some "Acme Pty Ltd") "12 345 678 901" (by decide)
     stubSearchEmpty stubSearchRaise stubDetails⟩

end Vetting
